import Mathlib

set_option maxRecDepth 2000

/-
Shallow embedding of the forecast pipeline in `scripts/run_forecast.py`
(normalize_cloth_size, encode_size, prepare_features, predict_demand, main),
together with theorems checking the specification's claims about it.

Modelling conventions:
  * Python values that can appear in the `size` field (None/NaN, strings,
    numbers) are modelled by `PyValue`; JSON null and pandas NaN collapse to
    `PyValue.null` (both are caught by the same `pd.isna(...) or ... is None`
    tests in the source).
  * Python floats are modelled as exact rationals.  A decimal literal string
    parses to its exact decimal value, and `str()` of such a float prints the
    shortest decimal form, which agrees with CPython's round-trip printing on
    the decimal inputs this pipeline receives.  The special values inf/nan and
    underscore separators accepted by Python's `float()` are outside the model.
  * The one place where the difference between binary doubles and exact
    rationals is observable in the program's output is the product
    `predictions * 1.15` (numpy float64).  That multiplication is modelled
    bit-faithfully by `fpProd115`, which performs the IEEE-754
    round-to-nearest, ties-to-even rounding of `pd * float64(1.15)` explicitly
    (exact for `pd < 2^53`, i.e. every integer exactly representable as a
    float64).
  * The model artifact is a record `MLModel`: an optional feature-name list
    (`feature_names_in_` / `get_feature_names_out`, probed in
    `predict_demand`) and a predict function; `Option.none` as predict result
    models `model.predict` raising an exception.
-/

/-- A Python value as it can occur in the `size` field of an input record:
`null` stands for JSON null / pandas NaN, `str` for a string, `num` for a
number (modelled as an exact rational). -/
inductive PyValue where
  | null
  | str (s : String)
  | num (q : ℚ)
deriving DecidableEq

/-- Drop leading and trailing whitespace, as Python's `str.strip()`. -/
def stripChars (l : List Char) : List Char :=
  ((l.dropWhile Char.isWhitespace).reverse.dropWhile Char.isWhitespace).reverse

/-- Python `s.strip()`. -/
def pyStrip (s : String) : String := String.mk (stripChars s.toList)

/-- Does the list start with the given list?  (Plain structural version.) -/
def isStart : List Char → List Char → Bool
  | [], _ => true
  | _ :: _, [] => false
  | a :: as, b :: bs => a == b && isStart as bs

/-- Does `needle` occur as a contiguous segment of the list? -/
def hasSub (needle : List Char) : List Char → Bool
  | [] => needle.isEmpty
  | l@(_ :: t) => isStart needle l || hasSub needle t

/-- Python's substring containment test `sub in hay`. -/
def containsSub (hay sub : String) : Bool := hasSub sub.toList hay.toList

/-- Numeric value of a list of decimal digit characters. -/
def digitsVal (l : List Char) : ℕ :=
  l.foldl (fun a c => a * 10 + (c.toNat - 48)) 0

/-- Exponent part of a Python float literal (after the `e`/`E` marker). -/
def parseExp (sgn mant : ℚ) (t : List Char) : Option ℚ :=
  let (esgn, t1) :=
    match t with
    | '+' :: u => ((1 : ℤ), u)
    | '-' :: u => ((-1 : ℤ), u)
    | _ => ((1 : ℤ), t)
  let es := t1.takeWhile Char.isDigit
  let rest := t1.dropWhile Char.isDigit
  if es.isEmpty || !rest.isEmpty then Option.none
  else some (sgn * mant * (10 : ℚ) ^ (esgn * (digitsVal es : ℤ)))

/-- Python's `float(s)` on decimal literals: optional surrounding whitespace,
optional sign, digits with optional fractional part, optional exponent.
Returns the exact decimal value; `Option.none` models `ValueError`. -/
def parseFloat (s : String) : Option ℚ :=
  let cs := stripChars s.toList
  let (sgn, cs1) :=
    match cs with
    | '+' :: t => ((1 : ℚ), t)
    | '-' :: t => ((-1 : ℚ), t)
    | _ => ((1 : ℚ), cs)
  let ds := cs1.takeWhile Char.isDigit
  let rest1 := cs1.dropWhile Char.isDigit
  let (fs, rest2) :=
    match rest1 with
    | '.' :: t => (t.takeWhile Char.isDigit, t.dropWhile Char.isDigit)
    | _ => (([] : List Char), rest1)
  if ds.isEmpty && fs.isEmpty then Option.none
  else
    let mant : ℚ := (digitsVal ds : ℚ) + (digitsVal fs : ℚ) / (10 : ℚ) ^ fs.length
    match rest2 with
    | [] => some (sgn * mant)
    | 'e' :: t => parseExp sgn mant t
    | 'E' :: t => parseExp sgn mant t
    | _ => Option.none

/-- Python's `float()` applied to a `PyValue`.  `float(None)` raises
(`Option.none`), a string goes through `parseFloat`, a number is returned. -/
def pyFloat : PyValue → Option ℚ
  | PyValue.null => Option.none
  | PyValue.str s => parseFloat s
  | PyValue.num q => some q

/-- Pad a digit string with zeros on the left to the given length. -/
def padLeftZeros (s : String) (n : ℕ) : String :=
  String.mk (List.replicate (n - s.length) '0') ++ s

/-- Python's `str()` of a float, for floats arising from decimal input:
prints the (sign and) decimal digits with the fractional part, `9.0` for the
integral value 9.  (Scientific notation for very large/small magnitudes is
outside the model.) -/
def floatRepr (q : ℚ) : String :=
  let sign := if q < 0 then "-" else ""
  let n := q.num.natAbs
  let d := q.den
  if d = 1 then sign ++ toString n ++ ".0"
  else
    match (List.range 60).find? (fun k => 10 ^ k % d == 0) with
    | some k =>
      let s0 := padLeftZeros (toString (n * 10 ^ k / d)) (k + 1)
      let cs := s0.toList
      sign ++ String.mk (cs.take (cs.length - k)) ++ "." ++
        String.mk (cs.drop (cs.length - k))
    | Option.none => toString q

/-- Python's `str()` on a `PyValue` (`str(None) = "None"`). -/
def pyStrVal : PyValue → String
  | PyValue.null => "None"
  | PyValue.str s => s
  | PyValue.num q => floatRepr q

/-- Floor of a rational as an integer (kernel-computable form of `Int.floor`). -/
def ratFloorZ (q : ℚ) : ℤ := Int.fdiv q.num q.den

/-- The larger of two rationals (kernel-computable form of `max`),
as `np.maximum`. -/
def ratMax (a b : ℚ) : ℚ := if a ≤ b then b else a

/-- The larger of two integers (kernel-computable form of `max`),
as Python's `max`. -/
def pyMax (a b : ℤ) : ℤ := if a ≤ b then b else a

/-- Python's `int()` on a float value: truncation toward zero. -/
def pyInt (q : ℚ) : ℤ :=
  if 0 ≤ q then ratFloorZ q else -(ratFloorZ (-q))

/-- numpy's `round` of a rational value to the nearest integer, ties to even
(IEEE round-half-even, as performed by `ndarray.round()`), computed on the
numerator and denominator. -/
def npRound (q : ℚ) : ℤ :=
  let n := q.num
  let d : ℤ := (q.den : ℤ)
  let f := Int.fdiv n d
  let r := n - f * d
  if 2 * r < d then f
  else if d < 2 * r then f + 1
  else if f % 2 = 0 then f else f + 1

/-- Round-half-even of the non-negative fraction `a / b` (`b` positive),
on naturals: the rounding that `ndarray.round()` performs on the value
`a / b`. -/
def roundHalfEvenDiv (a b : ℕ) : ℕ :=
  let q := a / b
  let r := a % b
  if 2 * r < b then q
  else if b < 2 * r then q + 1
  else if q % 2 = 0 then q else q + 1

/-- The integer significand of `float64(1.15)`,
i.e. `round(1.15 * 2^52) = 5179139571476070`; `float64(1.15)` is this
value divided by `2^52`. -/
def fpMantissa115 : ℕ := 5179139571476070

/-- The number of right shifts needed to bring `N` below `2^53` (with enough
fuel), i.e. `max (⌊log2 N⌋ - 52) 0`: the binary exponent excess of `N` over a
53-bit significand. -/
def fpShift : ℕ → ℕ → ℕ
  | 0, _ => 0
  | fuel + 1, N => if N < 2 ^ 53 then 0 else fpShift fuel (N / 2) + 1

/-- Bit-faithful model of the IEEE-754 float64 product `pd * 1.15` as computed
by `predictions * 1.15` in `predict_demand` (numpy float64 arithmetic), given
as the numerator `A` of the exact value `A / 2^52` of the resulting double:
the exact product `pd * fpMantissa115 / 2^52` is rounded to 53 significand
bits, round-to-nearest ties-to-even.  Exact for `pd < 2^53` (every integer
exactly representable as a float64, product below the 128-bit shift fuel);
beyond that the int-to-double conversion itself would round, which is outside
the model. -/
def fpProd115 (pd : ℕ) : ℕ :=
  let N := pd * fpMantissa115
  if N < 2 ^ 53 then N
  else
    let s := fpShift 128 N
    let q := N / 2 ^ s
    let r := N % 2 ^ s
    let M :=
      if 2 * r < 2 ^ s then q
      else if 2 ^ s < 2 * r then q + 1
      else if q % 2 = 0 then q else q + 1
    M * 2 ^ s

/-- The recommended stock derived from an integer predicted demand
(source lines 245-250): numpy's rounding of the float64 product `pd * 1.15`
— the value `fpProd115 pd / 2^52` — then Python's `max(int(x), 2)`. -/
def recommendedStockOf (pd : ℕ) : ℤ :=
  pyMax ((roundHalfEvenDiv (fpProd115 pd) (2 ^ 52) : ℕ) : ℤ) 2

/-- The `size_map` dictionary of `normalize_cloth_size` (source lines 97-101),
in source order. -/
def clothMap : List (String × String) :=
  [("XXS", "XXS"), ("XS", "XS"), ("S", "S"), ("M", "M"), ("L", "L"),
   ("XL", "XL"), ("XXL", "XXL"), ("XXXL", "XXXL"),
   ("2XL", "XXL"), ("3XL", "XXXL"), ("4XL", "4XL"), ("5XL", "5XL")]

/-- Python's `size_map.get(size_str, size_str)`. -/
def clothGet (s : String) : String := (clothMap.lookup s).getD s

/-- `normalize_cloth_size` (source lines 89-103): None/NaN give None;
otherwise the value is stringified, stripped, uppercased and looked up in the
synonym table, defaulting to itself.  Note the empty string is NOT caught by
`pd.isna(size) or size is None` and therefore normalizes to the empty string,
not to None. -/
def normalize_cloth_size : PyValue → Option String
  | PyValue.null => Option.none
  | v => some (clothGet (pyStrip (pyStrVal v)).toUpper)

/-- The `size_map` ordinal dictionary of `encode_size` (source lines 67-70). -/
def sizeOrdMap : List (String × ℤ) :=
  [("XS", 0), ("S", 1), ("M", 2), ("L", 3), ("XL", 4), ("2XL", 5), ("3XL", 6),
   ("XXL", 7), ("XXXL", 8), ("4XL", 9), ("5XL", 10)]

/-- Numeric branch of `encode_size` (source lines 77-87).  The first range
test `4 <= size_num <= 13` contains the whole second range `[6.5, 8.0]`, so
the second branch is unreachable. -/
def encodeSizeNum (q : ℚ) : ℤ :=
  if 4 ≤ q ∧ q ≤ 13 then pyInt q + 6
  else if (6.5 : ℚ) ≤ q ∧ q ≤ 8 then pyInt (q * 4) + 5
  else pyInt q

/-- `encode_size` (source lines 62-87): None/NaN/empty give -1, then the
ordinal dictionary, then the numeric ranges; unparsable values give -1. -/
def encode_size (v : PyValue) : ℤ :=
  match v with
  | PyValue.null => -1
  | PyValue.str s =>
    if s = "" then -1
    else
      match sizeOrdMap.lookup s with
      | some c => c
      | Option.none =>
        match parseFloat s with
        | some q => encodeSizeNum q
        | Option.none => -1
  | PyValue.num q => encodeSizeNum q

/-- An input record, one element of the JSON array read by `main`.  The model
assumes every record carries the `type` (or `uniform_type`) key — the column
`uniform_type_gendered` is a copy of it — and a `size`; `category` is
optional. -/
structure RawRecord where
  type : String
  size : PyValue
  category : Option String := Option.none
deriving DecidableEq

/-- `str(row['uniform_type_gendered']).upper()` in `prepare_features`. -/
def upType (r : RawRecord) : String := r.type.toUpper

/-- Test `'BAJU' in uniform_type` (the APPAREL family). -/
def isBaju (r : RawRecord) : Bool := containsSub (upType r) "BAJU"

/-- Test `any(x in uniform_type for x in ['BOOT', 'BERET'])`, reached only when
the BAJU test failed (the MEASURED family). -/
def isMeasured (r : RawRecord) : Bool :=
  !isBaju r && (containsSub (upType r) "BOOT" || containsSub (upType r) "BERET")

/-- The per-row normalization loop of `prepare_features` (source lines
132-147): BAJU types through `normalize_cloth_size`, BOOT/BERET types through
`float(...)` with failures becoming None, all other types through `str(...)`. -/
def normSize (r : RawRecord) : PyValue :=
  if isBaju r then
    match normalize_cloth_size r.size with
    | some s => PyValue.str s
    | Option.none => PyValue.null
  else if containsSub (upType r) "BOOT" || containsSub (upType r) "BERET" then
    match pyFloat r.size with
    | some q => PyValue.num q
    | Option.none => PyValue.null
  else PyValue.str (pyStrVal r.size)

/-- The row-survival test `df['size_normalized'].notna()` (source line 150). -/
def keptRow (r : RawRecord) : Bool := normSize r != PyValue.null

/-- The stringified normalized size,
`df['size'] = df['size_normalized'].astype(str)` (source line 157). -/
def sizeStrOf (r : RawRecord) : String := pyStrVal (normSize r)

/-- `prepare_features` (source lines 105-159): keep the rows whose normalized
size is not null; raise `ValueError` when none survive. -/
def prepare_features (input : List RawRecord) : Except String (List RawRecord) :=
  if (input.filter keptRow).isEmpty then
    Except.error "No valid data after filtering null sizes"
  else Except.ok (input.filter keptRow)

/-- Insert a string into a sorted list of strings. -/
def insertSorted (a : String) : List String → List String
  | [] => [a]
  | b :: t => if a < b then a :: b :: t else b :: insertSorted a t

/-- Sort a list of strings (insertion sort, lexicographic as in pandas). -/
def sortStrings : List String → List String
  | [] => []
  | a :: t => insertSorted a (sortStrings t)

/-- Drop duplicate strings (any occurrence policy: the result is sorted
afterwards, so only the underlying set matters). -/
def dedupStr : List String → List String
  | [] => []
  | a :: t => if a ∈ t then dedupStr t else a :: dedupStr t

/-- The sorted distinct values of a column, the category order used by
`pd.get_dummies`. -/
def sortedDedup (l : List String) : List String := sortStrings (dedupStr l)

/-- The one-hot column names produced by
`pd.get_dummies(X, columns=['uniform_type_gendered', 'size'])` on the batch:
`uniform_type_gendered_<v>` over the batch's distinct types, then
`size_<v>` over the batch's distinct stringified sizes, each group in sorted
order. -/
def encodedCols (rows : List RawRecord) : List String :=
  (sortedDedup (rows.map RawRecord.type)).map
      (fun v => "uniform_type_gendered_" ++ v)
  ++ (sortedDedup (rows.map sizeStrOf)).map (fun v => "size_" ++ v)

/-- The value of one-hot column `c` at row `r`: 1 exactly when `c` names the
row's own type or size value. -/
def colVal (r : RawRecord) (c : String) : ℚ :=
  if c = "uniform_type_gendered_" ++ r.type ∨ c = "size_" ++ sizeStrOf r then 1
  else 0

/-- One cell of the vocabulary-aligned matrix (source lines 216-220): the
batch's one-hot value when the feature is among the batch's one-hot columns,
otherwise the fill value 0 of `np.zeros`. -/
def alignedCell (rows : List RawRecord) (r : RawRecord) (f : String) : ℚ :=
  if f ∈ encodedCols rows then colVal r f else 0

/-- The feature matrix handed to `model.predict` (source lines 205-229):
with a vocabulary, one column per vocabulary entry in vocabulary order
(copied when present in the batch's one-hot table, zeros when absent, batch
columns outside the vocabulary dropped); without one, the batch-local one-hot
table as-is.  `np.nan_to_num` is the identity here since every cell is 0 or 1. -/
def featureMatrix (vocab : Option (List String)) (rows : List RawRecord) :
    List (List ℚ) :=
  match vocab with
  | some vs => rows.map fun r => vs.map (alignedCell rows r)
  | Option.none => rows.map fun r => (encodedCols rows).map (colVal r)

/-- The loaded model artifact: the optional feature vocabulary
(`feature_names_in_` / `get_feature_names_out`) and the predict capability;
`Option.none` from `predictFn` models `model.predict` raising. -/
structure MLModel where
  featureNamesIn : Option (List String)
  predictFn : List (List ℚ) → Option (List ℚ)

/-- Post-processing of one raw prediction (source lines 240-250):
`np.maximum(p, 0).astype(int)` (clamp then truncate) gives the demand, then
`max(int(round(float64(pd) * 1.15)), 2)` gives the recommended stock. -/
def postOne (p : ℚ) : ℕ × ℤ :=
  let pd := (ratFloorZ (ratMax p 0)).toNat
  (pd, recommendedStockOf pd)

/-- Post-processing of the prediction vector. -/
def postProcess (ps : List ℚ) : List (ℕ × ℤ) := ps.map postOne

/-- `predict_demand` (source lines 161-252) without the printing: build the
feature matrix, call the model, fall back to the constant vector 2 when the
call raises, post-process.  A prediction vector of the wrong length makes the
later column assignment raise, escaping to `main`'s handler (`Option.none`). -/
def predictDemand (m : MLModel) (rows : List RawRecord) :
    Option (List (ℕ × ℤ)) :=
  match m.predictFn (featureMatrix m.featureNamesIn rows) with
  | Option.none => some (postProcess (List.replicate rows.length (2 : ℚ)))
  | some ps =>
    if ps.length = rows.length then some (postProcess ps) else Option.none

/-- One entry of the output `recommendations` list (source lines 283-289). -/
structure Recommendation where
  category : String
  type : String
  size : Option String
  forecasted_demand : ℕ
  recommended_stock : ℤ
deriving DecidableEq

/-- Build one output entry from a surviving row and its post-processed
prediction pair.  `row.get('category', row.get('uniform_type', 'Others'))`
reduces to the record's own category, defaulting to `'Others'`, for records
keyed by `type`. -/
def mkRec (r : RawRecord) (pr : ℕ × ℤ) : Recommendation :=
  { category := r.category.getD "Others"
    type := r.type
    size := some (sizeStrOf r)
    forecasted_demand := pr.1
    recommended_stock := pr.2 }

/-- The JSON object printed by `main`: either the success object (whose
`count` key is absent — `Option.none` — on the empty-input path, lines
263-266, and present with the list length on the normal path, lines 293-297)
or the failure envelope `{success: false, error, message}`. -/
inductive MainOut where
  | success (recommendations : List Recommendation) (count : Option ℕ)
  | failure (error : String) (message : String)
deriving DecidableEq

/-- Stand-in for the pandas message raised when the prediction vector length
does not match the frame (escalated, like any exception in the `try`, to the
failure envelope). -/
def lengthMismatchMsg : String := "Length of values does not match length of index"

/-- `main` (source lines 254-317): empty input short-circuits to a success
object without a `count` key; otherwise prepare features, predict, and either
emit the recommendations with their count or the failure envelope
`{success: false, error: str(e), message: 'Prediction error: ' + str(e)}`. -/
def runMain (input : List RawRecord) (m : MLModel) : MainOut :=
  if input.isEmpty then MainOut.success [] Option.none
  else
    match prepare_features input with
    | Except.error e => MainOut.failure e ("Prediction error: " ++ e)
    | Except.ok rows =>
      match predictDemand m rows with
      | Option.none =>
        MainOut.failure lengthMismatchMsg
          ("Prediction error: " ++ lengthMismatchMsg)
      | some prs =>
        MainOut.success ((rows.zip prs).map fun rp => mkRec rp.1 rp.2)
          (some (((rows.zip prs).map fun rp => mkRec rp.1 rp.2).length))

/-- Process exit status: `sys.exit(1)` on the failure envelope, 0 otherwise. -/
def exitCode : MainOut → ℕ
  | MainOut.success _ _ => 0
  | MainOut.failure _ _ => 1

/-! ### Concrete fixtures used by witnesses and counterexamples -/

/-- A model whose `predict` raises on every call. -/
def modelNone : MLModel := ⟨Option.none, fun _ => Option.none⟩

/-- A model predicting the constant 50 for every row, no vocabulary. -/
def modelConst50 : MLModel :=
  ⟨Option.none, fun X => some (X.map fun _ => (50 : ℚ))⟩

/-- A model predicting the constant 0 for every row, no vocabulary. -/
def modelConst0 : MLModel :=
  ⟨Option.none, fun X => some (X.map fun _ => (0 : ℚ))⟩

/-- The record `{type: "BOOT", size: "9"}`. -/
def recBoot9 : RawRecord := ⟨"BOOT", PyValue.str "9", Option.none⟩

/-- The record `{type: "BAJU_NO_3_LELAKI", size: "2xl"}`. -/
def recBaju2xl : RawRecord := ⟨"BAJU_NO_3_LELAKI", PyValue.str "2xl", Option.none⟩

/-- The record `{type: "BOOT", size: "wide"}` (unparsable MEASURED size). -/
def recBootWide : RawRecord := ⟨"BOOT", PyValue.str "wide", Option.none⟩

/-! ### Helper lemmas -/

theorem postProcess_length (ps : List ℚ) : (postProcess ps).length = ps.length := by
  simp [postProcess]

theorem predictDemand_length {m : MLModel} {rows : List RawRecord}
    {prs : List (ℕ × ℤ)} (h : predictDemand m rows = some prs) :
    prs.length = rows.length := by
  unfold predictDemand at h
  cases hp : m.predictFn (featureMatrix m.featureNamesIn rows) with
  | none =>
    rw [hp] at h
    simp only [Option.some.injEq] at h
    rw [← h, postProcess_length, List.length_replicate]
  | some ps =>
    rw [hp] at h
    by_cases hl : ps.length = rows.length
    · simp only [hl, if_pos] at h
      simp only [Option.some.injEq] at h
      rw [← h, postProcess_length, hl]
    · simp [hl] at h

theorem prepare_features_ok {input rows : List RawRecord}
    (h : prepare_features input = Except.ok rows) :
    rows = input.filter keptRow ∧ input ≠ [] := by
  unfold prepare_features at h
  by_cases hc : (input.filter keptRow).isEmpty
  · rw [if_pos hc] at h; exact absurd h (by simp)
  · rw [if_neg hc] at h
    simp only [Except.ok.injEq] at h
    refine ⟨h.symm, ?_⟩
    intro he
    subst he
    simp at hc

theorem zip_replicate_eq_map {α β : Type} (l : List α) (b : β) :
    l.zip (List.replicate l.length b) = l.map fun x => (x, b) := by
  induction l with
  | nil => rfl
  | cons a t ih => simp [List.replicate, ih]

theorem zipMap_type :
    ∀ (l1 : List RawRecord) (l2 : List (ℕ × ℤ)), l1.length ≤ l2.length →
      ((l1.zip l2).map fun rp => (mkRec rp.1 rp.2).type) = l1.map RawRecord.type
  | [], _, _ => rfl
  | _ :: _, [], h => by simp at h
  | a :: t1, b :: t2, h => by
    simp only [List.zip_cons_cons, List.map_cons, mkRec]
    exact congrArg _ (zipMap_type t1 t2 (by simpa using h))

theorem zipMap_size :
    ∀ (l1 : List RawRecord) (l2 : List (ℕ × ℤ)), l1.length ≤ l2.length →
      ((l1.zip l2).map fun rp => (mkRec rp.1 rp.2).size) =
        l1.map fun r => some (sizeStrOf r)
  | [], _, _ => rfl
  | _ :: _, [], h => by simp at h
  | a :: t1, b :: t2, h => by
    simp only [List.zip_cons_cons, List.map_cons, mkRec]
    exact congrArg _ (zipMap_size t1 t2 (by simpa using h))

theorem isEmpty_false_of_ne_nil {α : Type} {l : List α} (h : l ≠ []) :
    l.isEmpty = false := by
  cases l with
  | nil => exact absurd rfl h
  | cons a t => rfl

theorem runMain_ok {input rows : List RawRecord} {m : MLModel}
    {prs : List (ℕ × ℤ)} (h1 : prepare_features input = Except.ok rows)
    (h2 : predictDemand m rows = some prs) :
    runMain input m =
      MainOut.success ((rows.zip prs).map fun rp => mkRec rp.1 rp.2)
        (some (((rows.zip prs).map fun rp => mkRec rp.1 rp.2).length)) := by
  have hne : input ≠ [] := (prepare_features_ok h1).2
  unfold runMain
  rw [isEmpty_false_of_ne_nil hne]
  simp only [Bool.false_eq_true, if_false, h1, h2]

theorem lookup_getD_eq :
    ∀ (ps : List (String × String)) (u : String),
      (∀ p ∈ ps, p.1 = u → p.2 = u) → ((List.lookup u ps).getD u) = u := by
  intro ps
  induction ps with
  | nil => intro u _; rfl
  | cons a t ih =>
    intro u h
    obtain ⟨k, v⟩ := a
    show ((List.lookup u ((k, v) :: t)).getD u) = u
    rw [List.lookup]
    cases hbeq : u == k with
    | true =>
      have hk : u = k := eq_of_beq hbeq
      have : v = u := h (k, v) (List.mem_cons_self _ _) hk.symm
      simp [this]
    | false =>
      exact ih u fun p hp => h p (List.mem_cons_of_mem _ hp)

theorem filter_eq_nil_of_all_null {l : List RawRecord}
    (h : ∀ r ∈ l, normSize r = PyValue.null) : l.filter keptRow = [] := by
  induction l with
  | nil => rfl
  | cons a t ih =>
    have ha : keptRow a = false := by
      simp [keptRow, h a (List.mem_cons_self _ _)]
    rw [List.filter_cons, ha]
    simp only [Bool.false_eq_true, if_false]
    exact ih fun r hr => h r (List.mem_cons_of_mem _ hr)

theorem postOne_two : postOne 2 = (2, 2) := by with_unfolding_all rfl


/-! ### Further helper lemmas -/

theorem pyMax_ge_right (a b : ℤ) : b ≤ pyMax a b := by
  unfold pyMax
  split
  · exact le_refl b
  · next h => exact le_of_lt (lt_of_not_le h)

theorem predictDemand_eq_post {m : MLModel} {rows : List RawRecord}
    {prs : List (ℕ × ℤ)} (h : predictDemand m rows = some prs) :
    ∃ ps, prs = postProcess ps := by
  unfold predictDemand at h
  cases hp : m.predictFn (featureMatrix m.featureNamesIn rows) with
  | none =>
    rw [hp] at h
    simp only [Option.some.injEq] at h
    exact ⟨_, h.symm⟩
  | some ps =>
    rw [hp] at h
    by_cases hl : ps.length = rows.length
    · simp only [hl, if_pos] at h
      simp only [Option.some.injEq] at h
      exact ⟨ps, h.symm⟩
    · simp [hl] at h

/-! ### Claim C1 -/

/-- C1 (counterexample): at `predictedDemand = 50` the emitted
`recommendedStock` is 57, but `max(round(50 * 1.15), 2) = max(round(57.5), 2)
= 58` under both the ties-to-even and the half-away-from-zero reading of
`round` (here `1.15 = 23/20` exactly).  The discrepancy comes from the IEEE
double product `50 * 1.15 = 57.49999999999999 < 57.5`. -/
theorem C1_round_counterexample :
    runMain [recBoot9] modelConst50 =
      MainOut.success
        [{ category := "Others", type := "BOOT", size := some "9.0",
           forecasted_demand := 50, recommended_stock := 57 }] (some 1)
    ∧ (57 : ℤ) ≠ pyMax (npRound ((50 : ℚ) * (23 / 20))) 2
    ∧ (57 : ℤ) ≠ pyMax (ratFloorZ ((50 : ℚ) * (23 / 20) + 1 / 2)) 2 := by
  refine ⟨?_, ?_, ?_⟩
  · with_unfolding_all rfl
  · with_unfolding_all decide
  · with_unfolding_all decide

/-- C1 (amended): for every output row of `predict_demand`, including the
fallback path, the predicted demand is a natural number and the recommended
stock equals `max(roundHalfEven(float64(predictedDemand * 1.15)), 2)`, hence
is at least 2.  (The claim's exact-arithmetic `round(predictedDemand * 1.15)`
differs from the float64 computation at some demands, e.g. 50.) -/
theorem C1_amended_stock_formula (m : MLModel) (rows : List RawRecord)
    (outs : List (ℕ × ℤ)) (h : predictDemand m rows = some outs) :
    ∀ pr ∈ outs,
      pr.2 = pyMax ((roundHalfEvenDiv (fpProd115 pr.1) (2 ^ 52) : ℕ) : ℤ) 2
      ∧ 2 ≤ pr.2 := by
  obtain ⟨ps, rfl⟩ := predictDemand_eq_post h
  intro pr hpr
  simp only [postProcess, List.mem_map] at hpr
  obtain ⟨p, -, rfl⟩ := hpr
  exact ⟨rfl, pyMax_ge_right _ _⟩

/-- Witness for `C1_amended_stock_formula` at the concrete batch
`[{type: "BOOT", size: "9"}]` and a model predicting 50. -/
theorem C1_amended_stock_formula_witness :
    ((50 : ℕ), (57 : ℤ)).2 =
      pyMax ((roundHalfEvenDiv (fpProd115 ((50 : ℕ), (57 : ℤ)).1) (2 ^ 52) : ℕ) : ℤ) 2
    ∧ 2 ≤ ((50 : ℕ), (57 : ℤ)).2 :=
  C1_amended_stock_formula modelConst50 [recBoot9] [(50, 57)]
    (by with_unfolding_all rfl) (50, 57) (by simp)

/-! ### Claim C2 -/

/-- C2 (counterexample): on the empty input the program prints
`{success: true, recommendations: []}` with NO `count` key (source line 265),
not the object `{success: true, recommendations: [], count: 0}`. -/
theorem C2_count_counterexample :
    runMain [] modelConst0 = MainOut.success [] Option.none
    ∧ runMain [] modelConst0 ≠ MainOut.success [] (some 0) := by
  constructor
  · rfl
  · with_unfolding_all decide

/-- C2 (amended): the empty JSON array succeeds and yields
`{success: true, recommendations: []}`, with the `count` key absent. -/
theorem C2_amended_empty_input (m : MLModel) :
    runMain [] m = MainOut.success [] Option.none := rfl

/-! ### Claim C3 -/

/-- C3 (counterexample): the empty string is not caught by
`pd.isna(size) or size is None`, so `normalize_cloth_size('')` returns the
empty string, not None. -/
theorem C3_empty_size_counterexample :
    normalize_cloth_size (PyValue.str "") = some ""
    ∧ normalize_cloth_size (PyValue.str "") ≠ Option.none := by
  constructor
  · with_unfolding_all rfl
  · with_unfolding_all decide

/-- C3 (amended): None/NaN normalizes to None; every other value (the empty
string included) is stringified, stripped and uppercased, and then the synonym
table sends `2XL` to `XXL` and `3XL` to `XXXL` while every other token — the
recognized ones and the unrecognized ones alike — passes through unchanged,
never rejected. -/
theorem C3_amended_normalize :
    normalize_cloth_size PyValue.null = Option.none
    ∧ (∀ s : String,
        normalize_cloth_size (PyValue.str s) =
          some (clothGet (pyStrip s).toUpper))
    ∧ clothGet "2XL" = "XXL" ∧ clothGet "3XL" = "XXXL"
    ∧ ∀ u : String, u ≠ "2XL" → u ≠ "3XL" → clothGet u = u := by
  refine ⟨rfl, fun s => rfl, by with_unfolding_all rfl,
    by with_unfolding_all rfl, ?_⟩
  intro u h2 h3
  unfold clothGet
  apply lookup_getD_eq
  intro p hp hkey
  simp only [clothMap, List.mem_cons, List.not_mem_nil, or_false] at hp
  rcases hp with rfl | rfl | rfl | rfl | rfl | rfl | rfl | rfl | rfl | rfl | rfl | rfl <;>
    simp_all

/-- Witness for `C3_amended_normalize`: the unrecognized token `WIDE` passes
through unchanged. -/
theorem C3_amended_normalize_witness : clothGet "WIDE" = "WIDE" :=
  C3_amended_normalize.2.2.2.2 "WIDE" (by decide) (by decide)

/-! ### Claim C4 -/

/-- C4 (confirmed): for a MEASURED-family record (type containing BOOT or
BERET, and not BAJU, which takes priority), the normalized size is the parsed
float when `float(...)` succeeds and None when it raises (null and empty sizes
raise); and records whose normalized size is None do not survive
`prepare_features`. -/
theorem C4_measured_parse (r : RawRecord) (h : isMeasured r = true) :
    normSize r = (match pyFloat r.size with
      | some q => PyValue.num q
      | Option.none => PyValue.null)
    ∧ ∀ (input rows : List RawRecord),
        prepare_features input = Except.ok rows →
        normSize r = PyValue.null → r ∉ rows := by
  have h' := h
  unfold isMeasured at h'
  rw [Bool.and_eq_true, Bool.not_eq_true'] at h'
  obtain ⟨hb, hm⟩ := h'
  constructor
  · simp only [normSize, hb, Bool.false_eq_true, if_false, hm, if_true]
  · intro input rows hok hnull hmem
    obtain ⟨hrows, -⟩ := prepare_features_ok hok
    obtain ⟨-, hkept⟩ := List.mem_filter.mp (hrows ▸ hmem)
    simp [keptRow, hnull] at hkept

/-- Witness for `C4_measured_parse`: `{type: "BOOT", size: "9"}` parses to the
float 9.0, and `{type: "BOOT", size: "wide"}` is dropped by
`prepare_features`. -/
theorem C4_measured_parse_witness :
    normSize recBoot9 =
      (match pyFloat recBoot9.size with
        | some q => PyValue.num q
        | Option.none => PyValue.null)
    ∧ recBootWide ∉ [recBoot9] :=
  ⟨(C4_measured_parse recBoot9 (by with_unfolding_all decide)).1,
   (C4_measured_parse recBootWide (by with_unfolding_all decide)).2
     [recBootWide, recBoot9] [recBoot9]
     (by with_unfolding_all rfl) (by with_unfolding_all rfl)⟩

/-! ### Claim C5 -/

/-- C5 (confirmed): for a non-failing non-empty batch, the output holds one
recommendation per input record whose normalized size is non-null, in input
order, and the emitted `count` is the length of that list. -/
theorem C5_row_correspondence (input : List RawRecord) (m : MLModel)
    (rows : List RawRecord) (prs : List (ℕ × ℤ))
    (h1 : prepare_features input = Except.ok rows)
    (h2 : predictDemand m rows = some prs) :
    ∃ recs, runMain input m = MainOut.success recs (some recs.length)
      ∧ recs.length = (input.filter keptRow).length
      ∧ recs.map Recommendation.type =
          (input.filter keptRow).map RawRecord.type := by
  obtain ⟨hrows, -⟩ := prepare_features_ok h1
  have hlen : prs.length = rows.length := predictDemand_length h2
  refine ⟨(rows.zip prs).map fun rp => mkRec rp.1 rp.2, runMain_ok h1 h2, ?_, ?_⟩
  · rw [List.length_map, List.length_zip, hlen, min_self, hrows]
  · calc ((rows.zip prs).map fun rp => mkRec rp.1 rp.2).map Recommendation.type
        = (rows.zip prs).map fun rp => (mkRec rp.1 rp.2).type := by
          rw [List.map_map]; rfl
      _ = rows.map RawRecord.type := zipMap_type rows prs (le_of_eq hlen.symm)
      _ = (input.filter keptRow).map RawRecord.type := by rw [hrows]

/-- Witness for `C5_row_correspondence`: a three-record batch in which the
middle record has an unparsable MEASURED size and is dropped. -/
theorem C5_row_correspondence_witness :
    ∃ recs, runMain [recBoot9, recBootWide, recBaju2xl] modelConst0 =
        MainOut.success recs (some recs.length)
      ∧ recs.length =
          ([recBoot9, recBootWide, recBaju2xl].filter keptRow).length
      ∧ recs.map Recommendation.type =
          ([recBoot9, recBootWide, recBaju2xl].filter keptRow).map
            RawRecord.type :=
  C5_row_correspondence [recBoot9, recBootWide, recBaju2xl] modelConst0
    [recBoot9, recBaju2xl] [(0, 2), (0, 2)]
    (by with_unfolding_all rfl) (by with_unfolding_all rfl)

/-! ### Claim C6 -/

/-- C6 (confirmed): with a model-supplied vocabulary the feature matrix has
one row per surviving record and exactly `len(vocabulary)` columns for every
batch; vocabulary columns present among the batch's one-hot columns carry the
one-hot value, absent ones are zero-filled, batch columns outside the
vocabulary are dropped (the matrix has only vocabulary columns), and every
cell is 0 or 1 — in particular never NaN or infinite. -/
theorem C6_vocab_alignment (vs : List String) (rows : List RawRecord) :
    (featureMatrix (some vs) rows).length = rows.length
    ∧ (∀ x ∈ featureMatrix (some vs) rows, x.length = vs.length)
    ∧ (∀ r ∈ rows, ∀ f ∈ vs, f ∈ encodedCols rows →
        alignedCell rows r f = colVal r f)
    ∧ (∀ r ∈ rows, ∀ f ∈ vs, f ∉ encodedCols rows → alignedCell rows r f = 0)
    ∧ (∀ x ∈ featureMatrix (some vs) rows, ∀ c ∈ x, c = 0 ∨ c = 1) := by
  refine ⟨by simp [featureMatrix], ?_, ?_, ?_, ?_⟩
  · intro x hx
    simp only [featureMatrix, List.mem_map] at hx
    obtain ⟨r, -, rfl⟩ := hx
    simp
  · intro r _ f _ hf
    simp [alignedCell, hf]
  · intro r _ f _ hf
    simp [alignedCell, hf]
  · intro x hx c hc
    simp only [featureMatrix, List.mem_map] at hx
    obtain ⟨r, -, rfl⟩ := hx
    simp only [List.mem_map] at hc
    obtain ⟨f, -, rfl⟩ := hc
    unfold alignedCell colVal
    split
    · split
      · right; rfl
      · left; rfl
    · left; rfl

/-- Witness for `C6_vocab_alignment`: a vocabulary with one feature present in
the batch (copied) and one absent (zero-filled). -/
theorem C6_vocab_alignment_witness :
    (featureMatrix (some ["uniform_type_gendered_BOOT", "size_M"])
        [recBoot9]).length = 1
    ∧ alignedCell [recBoot9] recBoot9 "uniform_type_gendered_BOOT" =
        colVal recBoot9 "uniform_type_gendered_BOOT"
    ∧ alignedCell [recBoot9] recBoot9 "size_M" = 0 :=
  ⟨(C6_vocab_alignment ["uniform_type_gendered_BOOT", "size_M"] [recBoot9]).1,
   (C6_vocab_alignment ["uniform_type_gendered_BOOT", "size_M"]
       [recBoot9]).2.2.1 recBoot9 (by simp) "uniform_type_gendered_BOOT"
     (by simp) (by with_unfolding_all decide),
   (C6_vocab_alignment ["uniform_type_gendered_BOOT", "size_M"]
       [recBoot9]).2.2.2.1 recBoot9 (by simp) "size_M" (by simp)
     (by with_unfolding_all decide)⟩

/-! ### Claim C7 -/

/-- C7 (confirmed): when `model.predict` raises, the batch is not aborted and
no failure envelope is produced — `main` still emits the success object — and
every surviving row gets the constant fallback `predictedDemand = 2` and
therefore `recommendedStock = 2`. -/
theorem C7_fallback_two (input rows : List RawRecord) (m : MLModel)
    (h1 : prepare_features input = Except.ok rows)
    (hfail : m.predictFn (featureMatrix m.featureNamesIn rows) = Option.none) :
    runMain input m =
      MainOut.success (rows.map fun r => mkRec r (2, 2)) (some rows.length)
    ∧ ∀ rec ∈ rows.map fun r => mkRec r (2, 2),
        rec.forecasted_demand = 2 ∧ rec.recommended_stock = 2 := by
  have h2 : predictDemand m rows =
      some (postProcess (List.replicate rows.length (2 : ℚ))) := by
    unfold predictDemand
    rw [hfail]
  have hpost : postProcess (List.replicate rows.length (2 : ℚ)) =
      List.replicate rows.length ((2 : ℕ), (2 : ℤ)) := by
    unfold postProcess
    rw [List.map_replicate, postOne_two]
  constructor
  · have hr := runMain_ok h1 h2
    rw [hpost] at hr
    rw [hr, zip_replicate_eq_map, List.map_map]
    rw [show ((fun rp => mkRec rp.1 rp.2) ∘ fun x => (x, ((2 : ℕ), (2 : ℤ))))
          = fun r => mkRec r (2, 2) from rfl]
    rw [List.length_map]
  · intro rec hrec
    simp only [List.mem_map] at hrec
    obtain ⟨r, -, rfl⟩ := hrec
    exact ⟨rfl, rfl⟩

/-- Witness for `C7_fallback_two`: the raising model on a one-record batch. -/
theorem C7_fallback_two_witness :
    runMain [recBoot9] modelNone =
      MainOut.success ([recBoot9].map fun r => mkRec r (2, 2)) (some 1)
    ∧ ∀ rec ∈ [recBoot9].map fun r => mkRec r (2, 2),
        rec.forecasted_demand = 2 ∧ rec.recommended_stock = 2 :=
  C7_fallback_two [recBoot9] [recBoot9] modelNone
    (by with_unfolding_all rfl) rfl

/-! ### Claim C8 -/

/-- C8 (code bug): the `encode_size` range test `4 <= size_num <= 13` contains
the whole headwear range `[6.5, 8.0]`, so the branch the claim (and the
code's own comment `Beret sizes: 6.5-8.0 -> 20-35`) describes is unreachable:
size 7.0 encodes to `int(7) + 6 = 13`, not `int(7 * 4) + 5 = 33`.  Also, the
shoe branch truncates: 4.5 encodes to 10, not 4.5 + 6. -/
theorem C8_beret_branch_shadowed :
    encode_size (PyValue.str "7.0") = 13
    ∧ encode_size (PyValue.num 7) = 13
    ∧ pyInt ((7 : ℚ) * 4) + 5 = 33
    ∧ encode_size (PyValue.str "4.5") = 10 := by
  refine ⟨?_, ?_, ?_, ?_⟩ <;> with_unfolding_all rfl

/-! ### Claim C9 -/

/-- C9 (confirmed): a non-empty batch in which size normalization leaves no
surviving record escalates to the `ValueError` of `prepare_features`, which
`main` reports through the failure envelope `{success: false, error, message}`
with a non-zero exit status. -/
theorem C9_empty_filter_error (input : List RawRecord) (m : MLModel)
    (h1 : input ≠ []) (h2 : ∀ r ∈ input, normSize r = PyValue.null) :
    runMain input m =
      MainOut.failure "No valid data after filtering null sizes"
        ("Prediction error: " ++ "No valid data after filtering null sizes")
    ∧ exitCode (runMain input m) = 1 := by
  have hfe : input.filter keptRow = [] := filter_eq_nil_of_all_null h2
  have hprep : prepare_features input =
      Except.error "No valid data after filtering null sizes" := by
    unfold prepare_features
    rw [hfe]
    rfl
  have hrm : runMain input m =
      MainOut.failure "No valid data after filtering null sizes"
        ("Prediction error: " ++ "No valid data after filtering null sizes") := by
    unfold runMain
    rw [isEmpty_false_of_ne_nil h1]
    simp only [Bool.false_eq_true, if_false, hprep]
  exact ⟨hrm, by rw [hrm]; rfl⟩

/-- Witness for `C9_empty_filter_error`: the one-record batch
`[{type: "BOOT", size: "wide"}]`. -/
theorem C9_empty_filter_error_witness :
    runMain [recBootWide] modelConst0 =
      MainOut.failure "No valid data after filtering null sizes"
        ("Prediction error: " ++ "No valid data after filtering null sizes")
    ∧ exitCode (runMain [recBootWide] modelConst0) = 1 :=
  C9_empty_filter_error [recBootWide] modelConst0 (by simp)
    (by with_unfolding_all decide)

/-! ### Claim C10 -/

/-- C10 (confirmed): each emitted `size` field is the Python string form of
the normalized canonical size (`astype(str)` of `size_normalized`), not the
raw input size. -/
theorem C10_size_from_normalized (input : List RawRecord) (m : MLModel)
    (rows : List RawRecord) (prs : List (ℕ × ℤ))
    (h1 : prepare_features input = Except.ok rows)
    (h2 : predictDemand m rows = some prs) :
    ∃ recs, runMain input m = MainOut.success recs (some recs.length)
      ∧ recs.map Recommendation.size =
          rows.map fun r => some (pyStrVal (normSize r)) := by
  have hlen : prs.length = rows.length := predictDemand_length h2
  refine ⟨(rows.zip prs).map fun rp => mkRec rp.1 rp.2, runMain_ok h1 h2, ?_⟩
  calc ((rows.zip prs).map fun rp => mkRec rp.1 rp.2).map Recommendation.size
      = (rows.zip prs).map fun rp => (mkRec rp.1 rp.2).size := by
        rw [List.map_map]; rfl
    _ = rows.map fun r => some (sizeStrOf r) :=
        zipMap_size rows prs (le_of_eq hlen.symm)
    _ = rows.map fun r => some (pyStrVal (normSize r)) := rfl

/-- Witness for `C10_size_from_normalized`: the MEASURED size "9" is emitted
as the float rendering "9.0" and the apparel synonym "2xl" as the
canonical "XXL". -/
theorem C10_size_from_normalized_witness :
    ∃ recs, runMain [recBoot9, recBaju2xl] modelConst0 =
        MainOut.success recs (some recs.length)
      ∧ recs.map Recommendation.size = [some "9.0", some "XXL"] := by
  obtain ⟨recs, hmain, hsize⟩ :=
    C10_size_from_normalized [recBoot9, recBaju2xl] modelConst0
      [recBoot9, recBaju2xl] [(0, 2), (0, 2)]
      (by with_unfolding_all rfl) (by with_unfolding_all rfl)
  exact ⟨recs, hmain, hsize.trans (by with_unfolding_all rfl)⟩
